import Mathlib

/-!
Verification of the MCP HTTP protocol bridge (`mcp_server_http.py`).

The development shallowly embeds the JSON-RPC dispatcher
(`handle_mcp_request`), the downstream gateway (`call_tool`), the static
tool registry (`TOOLS`) and the per-client session store
(`connected_clients` / `client_sessions`).  Downstream HTTP traffic is
modelled by an oracle mapping each concrete HTTP call to either a JSON
response object or a stringified exception, exactly the two outcomes the
Python code distinguishes (`response.json()` versus a raised
`httpx.RequestError` / `httpx.HTTPStatusError`).
-/

/-- JSON-like Python values: the payloads that flow through the bridge
(strings, integers, `None`, and nested dict objects). -/
inductive PyVal where
| vstr : String → PyVal
| vint : Int → PyVal
| vnone : PyVal
| vobj : List (String × PyVal) → PyVal

/-- A Python dict with string keys, in insertion order. -/
abbrev Args := List (String × PyVal)

/-- `d[k]` as a total function: `some v` when the key is present (first
occurrence wins, as in a Python dict), `none` for a `KeyError`. -/
def argGet : Args → String → Option PyVal
| [], _ => none
| (k, v) :: rest, key => if k = key then some v else argGet rest key

/-- Python `d.get(k)`: the value when present, `None` otherwise. -/
def dictGet (d : Args) (k : String) : PyVal :=
  match argGet d k with
  | some v => v
  | none => PyVal.vnone

/-- Python `d.get(k, default)`. -/
def dictGetD (d : Args) (k : String) (dflt : PyVal) : PyVal :=
  match argGet d k with
  | some v => v
  | none => dflt

mutual

/-- Python `repr` of a value (dicts print as `\x7b'k': v\x7d`). -/
def pyRepr : PyVal → String
| PyVal.vstr s => "\x27" ++ s ++ "\x27"
| PyVal.vint n => toString n
| PyVal.vnone => "None"
| PyVal.vobj fs => "\x7b" ++ pyReprFields fs ++ "\x7d"

/-- `repr` of the comma-separated fields of a dict. -/
def pyReprFields : List (String × PyVal) → String
| [] => ""
| [(k, v)] => "\x27" ++ k ++ "\x27: " ++ pyRepr v
| (k, v) :: f :: rest =>
    "\x27" ++ k ++ "\x27: " ++ pyRepr v ++ ", " ++ pyReprFields (f :: rest)

end

/-- Python `str` of a value, as used by f-string interpolation. -/
def pyStr : PyVal → String
| PyVal.vstr s => s
| v => pyRepr v

/-- `n` spaces, for `json.dumps` indentation. -/
def spaces (n : Nat) : String := String.mk (List.replicate n ' ')

mutual

/-- Python `json.dumps(v, indent=2)` at a given current indent. -/
def jsonDumpsAux : Nat → PyVal → String
| _, PyVal.vstr s => "\"" ++ s ++ "\""
| _, PyVal.vint n => toString n
| _, PyVal.vnone => "null"
| _, PyVal.vobj [] => "\x7b\x7d"
| ind, PyVal.vobj (f :: fs) =>
    "\x7b\n" ++ jsonDumpsFields (ind + 2) (f :: fs) ++ "\n" ++ spaces ind ++ "\x7d"

/-- The comma-and-newline separated fields of a dumped dict. -/
def jsonDumpsFields : Nat → List (String × PyVal) → String
| _, [] => ""
| ind, [(k, v)] => spaces ind ++ "\"" ++ k ++ "\": " ++ jsonDumpsAux ind v
| ind, (k, v) :: f :: rest =>
    spaces ind ++ "\"" ++ k ++ "\": " ++ jsonDumpsAux ind v ++ ",\n" ++
      jsonDumpsFields ind (f :: rest)

end

/-- `json.dumps(v, indent=2)`. -/
def jsonDumps (v : PyVal) : String := jsonDumpsAux 0 v

/-- Python `str(KeyError(k))`: the `repr` of the missing key. -/
def keyErrorStr (k : String) : String := "\x27" ++ k ++ "\x27"

/-- One concrete HTTP call to the downstream business server, as issued by
the `BusinessServerMCP` methods: a POST with a JSON body or a GET with
query parameters. -/
inductive DCall where
| post : String → Args → DCall
| get : String → Args → DCall

/-- Outcome of one downstream HTTP call: the parsed JSON object on a 2xx
response, or the stringified raised exception (`httpx.RequestError`,
`httpx.HTTPStatusError` from `raise_for_status`) otherwise. -/
inductive DownstreamResult where
| ok : Args → DownstreamResult
| err : String → DownstreamResult

/-- The downstream environment: what each HTTP call returns. -/
abbrev Downstream := DCall → DownstreamResult

/-- Result of `call_tool`: the returned text, whether a success branch was
taken (`ok = false` on unknown tool and on any caught exception), and the
downstream HTTP calls issued, in order. -/
structure GatewayOutcome where
  text : String
  ok : Bool
  calls : List DCall

/-- `call_tool(name, arguments)` from `mcp_server_http.py`: routes the five
registered tools to their downstream endpoints, returns
`"Unknown tool: <name>"` for anything else, and catches every exception
(a `KeyError` from a missing required argument, or a downstream failure)
as `"Error executing <name>: <str(e)>"`. -/
def call_tool (oracle : Downstream) (name : String) (arguments : Args) :
    GatewayOutcome :=
  if name = "register_agent" then
    match argGet arguments "name" with
    | none => ⟨"Error executing register_agent: " ++ keyErrorStr "name", false, []⟩
    | some nv =>
      match argGet arguments "version" with
      | none => ⟨"Error executing register_agent: " ++ keyErrorStr "version", false, []⟩
      | some vv =>
        let c := DCall.post "/register" [("name", nv), ("version", vv)]
        match oracle c with
        | DownstreamResult.ok resp =>
            ⟨"Agent registered successfully. Agent ID: " ++
              pyStr (dictGet resp "agent_id"), true, [c]⟩
        | DownstreamResult.err m =>
            ⟨"Error executing register_agent: " ++ m, false, [c]⟩
  else if name = "report_status" then
    match argGet arguments "agent_id" with
    | none => ⟨"Error executing report_status: " ++ keyErrorStr "agent_id", false, []⟩
    | some av =>
      match argGet arguments "status" with
      | none => ⟨"Error executing report_status: " ++ keyErrorStr "status", false, []⟩
      | some sv =>
        let c := DCall.post "/report_status"
          [("agent_id", av), ("status", sv),
           ("cpu_usage", dictGet arguments "cpu_usage"),
           ("memory_usage", dictGet arguments "memory_usage")]
        match oracle c with
        | DownstreamResult.ok resp =>
            ⟨"Status reported successfully: " ++ pyStr (dictGet resp "message"),
              true, [c]⟩
        | DownstreamResult.err m =>
            ⟨"Error executing report_status: " ++ m, false, [c]⟩
  else if name = "get_tasks" then
    match argGet arguments "agent_id" with
    | none => ⟨"Error executing get_tasks: " ++ keyErrorStr "agent_id", false, []⟩
    | some av =>
      let c := DCall.get "/tasks" [("agent_id", av)]
      match oracle c with
      | DownstreamResult.ok resp =>
          ⟨"Tasks for agent " ++ pyStr av ++ ":\n" ++
            jsonDumps (dictGetD resp "tasks" (PyVal.vobj [])), true, [c]⟩
      | DownstreamResult.err m =>
          ⟨"Error executing get_tasks: " ++ m, false, [c]⟩
  else if name = "add_number" then
    match argGet arguments "number" with
    | none => ⟨"Error executing add_number: " ++ keyErrorStr "number", false, []⟩
    | some nv =>
      let c := DCall.post "/adder" [("number", nv)]
      match oracle c with
      | DownstreamResult.ok resp =>
          ⟨"Result: " ++ pyStr nv ++ " + 1 = " ++ pyStr (dictGet resp "result"),
            true, [c]⟩
      | DownstreamResult.err m =>
          ⟨"Error executing add_number: " ++ m, false, [c]⟩
  else if name = "get_joke" then
    let c := DCall.get "/joke" []
    match oracle c with
    | DownstreamResult.ok resp =>
        ⟨"Here\x27s a joke for you:\n\nSetup: " ++
          pyStr (dictGetD resp "setup" (PyVal.vstr "")) ++
          "\nPunchline: " ++ pyStr (dictGetD resp "punchline" (PyVal.vstr "")),
          true, [c]⟩
    | DownstreamResult.err m =>
        ⟨"Error executing get_joke: " ++ m, false, [c]⟩
  else
    ⟨"Unknown tool: " ++ name, false, []⟩

/-- One property of a tool input schema: its JSON type and description. -/
structure PropSpec where
  type : String
  description : String

/-- One entry of the `TOOLS` registry: name, description, and the input
schema's properties and required-field list. -/
structure ToolSpec where
  name : String
  description : String
  properties : List (String × PropSpec)
  required : List String

/-- The static `TOOLS` registry of `mcp_server_http.py`. -/
def TOOLS : List ToolSpec :=
  [{ name := "register_agent",
     description := "Register a new agent with the business server",
     properties :=
       [("name", ⟨"string", "Name of the agent to register"⟩),
        ("version", ⟨"string", "Version of the agent"⟩)],
     required := ["name", "version"] },
   { name := "report_status",
     description := "Report agent status to the business server",
     properties :=
       [("agent_id", ⟨"string", "ID of the agent reporting status"⟩),
        ("status", ⟨"string", "Current status of the agent"⟩),
        ("cpu_usage", ⟨"number", "CPU usage percentage (optional)"⟩),
        ("memory_usage", ⟨"number", "Memory usage percentage (optional)"⟩)],
     required := ["agent_id", "status"] },
   { name := "get_tasks",
     description := "Get tasks assigned to a specific agent",
     properties :=
       [("agent_id", ⟨"string", "ID of the agent to get tasks for"⟩)],
     required := ["agent_id"] },
   { name := "add_number",
     description := "Add 1 to a given number using the business server",
     properties :=
       [("number", ⟨"integer", "The number to add 1 to"⟩)],
     required := ["number"] },
   { name := "get_joke",
     description := "Get a random joke from the business server",
     properties := [],
     required := [] }]

/-- The names of the registered tools, in registry order. -/
def toolNames : List String := TOOLS.map ToolSpec.name

/-- The required argument names of a registered tool (empty for an
unregistered name). -/
def requiredOf (n : String) : List String :=
  match TOOLS.find? (fun t => t.name == n) with
  | some t => t.required
  | none => []

/-- One entry of a session's `tools_called` history. -/
structure ToolRecord where
  tool_name : String
  arguments : Args
  timestamp : String

/-- One client session: `connected_at`, `requests_count`, `tools_called`. -/
structure Session where
  connected_at : String
  requests_count : Nat
  tools_called : List ToolRecord

/-- The association list backing the `client_sessions` dict. -/
abbrev Sessions := List (String × Session)

/-- The server's mutable state: the `connected_clients` set and the
`client_sessions` dict. -/
structure ServerState where
  connected_clients : List String
  client_sessions : Sessions

/-- `client_sessions[c]` lookup (first occurrence wins). -/
def lookupSession : Sessions → String → Option Session
| [], _ => none
| (k, s) :: rest, c => if k = c then some s else lookupSession rest c

/-- `client_sessions[c] = s` dict assignment: replace the first entry with
key `c`, or append a fresh one. -/
def setSession : Sessions → String → Session → Sessions
| [], c, s => [(c, s)]
| (k, s0) :: rest, c, s =>
    if k = c then (c, s) :: rest else (k, s0) :: setSession rest c s

/-- A JSON-RPC request id (absent on notifications). -/
abbrev RId := Option PyVal

/-- One content block of a `tools/call` result: `(type, text)`. -/
structure ContentBlock where
  type : String
  text : String

/-- The JSON-RPC error object: `code`, `message`, `data`. -/
structure RpcError where
  code : Int
  message : String
  data : String

/-- The `result` payload of a successful response: the fixed `initialize`
capability descriptor, a tool catalog, or `tools/call` content blocks. -/
inductive RpcResultVal where
| initCaps : String → Bool → String → String → RpcResultVal
| toolsList : List ToolSpec → RpcResultVal
| content : List ContentBlock → RpcResultVal

/-- The outbound envelope: optional echoed id, optional `result`, optional
`error` (the `notifications/initialized` acknowledgement carries none of
the three). -/
structure MCPResponse where
  id : RId
  result : Option RpcResultVal
  error : Option RpcError

/-- The `params` mapping of a request, as read by the dispatcher:
`params.get("name")` and `params.get("arguments", \x7b\x7d)`. -/
structure CallParams where
  name : String
  arguments : Args

/-- An inbound envelope: `request_data.get("method")`, the params, and
`request_data.get("id")`. -/
structure MCPRequest where
  method : Option String
  params : CallParams
  id : RId

/-- The `-32603` catch-all error response the outer `except` block builds,
echoing `request_data.get("id")` and stringifying the exception in
`data`. -/
def errorResponse (rid : RId) (data : String) : MCPResponse :=
  ⟨rid, none, some ⟨-32603, "Internal error", data⟩⟩

/-- Python `str` of a FastAPI `HTTPException(status_code, detail)`:
`"<status>: <detail>"`. -/
def httpExceptionStr (status : Int) (detail : String) : String :=
  toString status ++ ": " ++ detail

/-- f-string rendering of the optional `method` field (`None` if absent). -/
def optStrPy : Option String → String
| some m => m
| none => "None"

/-- The `tools/list` tracking step: bump `requests_count` when the client
has a session, otherwise leave the dict alone. -/
def bumpCount (m : Sessions) (cid : String) : Sessions :=
  match lookupSession m cid with
  | some s => setSession m cid ⟨s.connected_at, s.requests_count + 1, s.tools_called⟩
  | none => m

/-- The `tools/call` tracking step: bump `requests_count` and append the
invocation record when the client has a session. -/
def trackCall (m : Sessions) (cid : String) (rec : ToolRecord) : Sessions :=
  match lookupSession m cid with
  | some s =>
      setSession m cid
        ⟨s.connected_at, s.requests_count + 1, s.tools_called ++ [rec]⟩
  | none => m

/-- Result of one dispatcher invocation: the new state, the HTTP-level
JSON body returned, and the downstream calls issued while handling. -/
structure HandleResult where
  state : ServerState
  response : MCPResponse
  calls : List DCall

/-- The `initialize` branch of `handle_mcp_request`: record the new client
in `connected_clients` and `client_sessions` when unseen, then increment
the session's `requests_count` (if the dict somehow lacks the client the
`KeyError` falls through to the outer `except`), and answer with the
fixed capability descriptor. -/
def handleInitialize (now cid : String) (st : ServerState) (rid : RId) :
    HandleResult :=
  if cid ∈ st.connected_clients then
    match lookupSession st.client_sessions cid with
    | none =>
        ⟨⟨st.connected_clients, st.client_sessions⟩,
         errorResponse rid (keyErrorStr cid), []⟩
    | some s =>
        ⟨⟨st.connected_clients,
          setSession st.client_sessions cid
            ⟨s.connected_at, s.requests_count + 1, s.tools_called⟩⟩,
         ⟨rid, some (RpcResultVal.initCaps "2024-11-05" false
            "business-server-mcp" "1.0.0"), none⟩,
         []⟩
  else
    match lookupSession (setSession st.client_sessions cid ⟨now, 0, []⟩) cid with
    | none =>
        ⟨⟨st.connected_clients ++ [cid],
          setSession st.client_sessions cid ⟨now, 0, []⟩⟩,
         errorResponse rid (keyErrorStr cid), []⟩
    | some s =>
        ⟨⟨st.connected_clients ++ [cid],
          setSession (setSession st.client_sessions cid ⟨now, 0, []⟩) cid
            ⟨s.connected_at, s.requests_count + 1, s.tools_called⟩⟩,
         ⟨rid, some (RpcResultVal.initCaps "2024-11-05" false
            "business-server-mcp" "1.0.0"), none⟩,
         []⟩

/-- The `tools/list` branch: bump the counter when the client is tracked
and return the registry. -/
def handleToolsList (cid : String) (st : ServerState) (rid : RId) :
    HandleResult :=
  ⟨⟨st.connected_clients, bumpCount st.client_sessions cid⟩,
   ⟨rid, some (RpcResultVal.toolsList TOOLS), none⟩,
   []⟩

/-- The `tools/call` branch: track the invocation when the client is
tracked, delegate to `call_tool`, and wrap its text in a single content
block of an RPC success. -/
def handleToolsCall (oracle : Downstream) (now cid : String)
    (st : ServerState) (p : CallParams) (rid : RId) : HandleResult :=
  ⟨⟨st.connected_clients,
    trackCall st.client_sessions cid ⟨p.name, p.arguments, now⟩⟩,
   ⟨rid, some (RpcResultVal.content
      [⟨"text", (call_tool oracle p.name p.arguments).text⟩]), none⟩,
   (call_tool oracle p.name p.arguments).calls⟩

/-- `handle_mcp_request` from `mcp_server_http.py`.  `now` is the
`datetime.now().isoformat()` timestamp, `cid` the `ip:port` client id.
The unknown-method branch raises `HTTPException(400, ...)`, which the
outer `except` turns into the `-32603` error envelope. -/
def handle_mcp_request (oracle : Downstream) (now cid : String)
    (st : ServerState) (req : MCPRequest) : HandleResult :=
  if req.method = some "initialize" then
    handleInitialize now cid st req.id
  else if req.method = some "notifications/initialized" then
    ⟨st, ⟨none, none, none⟩, []⟩
  else if req.method = some "tools/list" then
    handleToolsList cid st req.id
  else if req.method = some "tools/call" then
    handleToolsCall oracle now cid st req.params req.id
  else
    ⟨st, errorResponse req.id
       (httpExceptionStr 400 ("Unknown method: " ++ optStrPy req.method)), []⟩

/-- One inbound request together with its client id and arrival time. -/
structure Inbound where
  client_id : String
  now : String
  req : MCPRequest

/-- Run the dispatcher over a sequence of inbound requests, threading the
server state. -/
def runRequests (oracle : Downstream) : ServerState → List Inbound → ServerState
| st, [] => st
| st, i :: rest =>
    runRequests oracle
      (handle_mcp_request oracle i.now i.client_id st i.req).state rest

/-- The request counter of a peer's session (0 when the peer has none). -/
def countOf (st : ServerState) (p : String) : Nat :=
  match lookupSession st.client_sessions p with
  | some s => s.requests_count
  | none => 0

/-- States reachable by the server: a peer with a session is a connected
client.  Holds in the empty initial state and is preserved by the
dispatcher, since `initialize` populates both structures together. -/
def SessionInv (st : ServerState) : Prop :=
  ∀ c : String, (lookupSession st.client_sessions c).isSome →
    c ∈ st.connected_clients

/-- Dict assignment then lookup: the assigned key reads back the new
value, every other key is untouched. -/
theorem lookupSession_setSession (m : Sessions) (c p : String) (s : Session) :
    lookupSession (setSession m c s) p =
      if p = c then some s else lookupSession m p := by
  induction m with
  | nil =>
    by_cases h : p = c
    · subst h; simp [setSession, lookupSession]
    · simp [setSession, lookupSession, h, Ne.symm h]
  | cons hd t ih =>
    obtain ⟨k, s0⟩ := hd
    by_cases hkc : k = c
    · subst hkc
      by_cases hpk : p = k
      · subst hpk; simp [setSession, lookupSession]
      · simp [setSession, lookupSession, hpk, Ne.symm hpk]
    · by_cases hpk : p = k
      · subst hpk
        simp [setSession, lookupSession, hkc]
      · simp [setSession, lookupSession, hkc, Ne.symm hpk, hpk, ih]

/-- Assigning a key makes its lookup succeed with the assigned value. -/
theorem lookupSession_setSession_self (m : Sessions) (c : String) (s : Session) :
    lookupSession (setSession m c s) c = some s := by
  simp [lookupSession_setSession]

/-- The request counter read off a raw session dict. -/
def countV (m : Sessions) (p : String) : Nat :=
  match lookupSession m p with
  | some s => s.requests_count
  | none => 0

/-- `countOf` is `countV` on the state's session dict. -/
theorem countOf_eq_countV (st : ServerState) (p : String) :
    countOf st p = countV st.client_sessions p := rfl

/-- `bumpCount` never decreases any peer's counter. -/
theorem countV_bumpCount_le (m : Sessions) (cid p : String) :
    countV m p ≤ countV (bumpCount m cid) p := by
  unfold bumpCount
  rcases hl : lookupSession m cid with _ | s
  · exact le_refl _
  · unfold countV
    rw [lookupSession_setSession]
    by_cases hp : p = cid
    · subst hp; simp [hl]
    · simp [hp]

/-- `trackCall` never decreases any peer's counter. -/
theorem countV_trackCall_le (m : Sessions) (cid p : String) (r : ToolRecord) :
    countV m p ≤ countV (trackCall m cid r) p := by
  unfold trackCall
  rcases hl : lookupSession m cid with _ | s
  · exact le_refl _
  · unfold countV
    rw [lookupSession_setSession]
    by_cases hp : p = cid
    · subst hp; simp [hl]
    · simp [hp]

/-- The `initialize` branch never decreases any peer's counter (for the
fresh-client path this needs the reachability invariant: an unconnected
client has no session, so its counter was 0). -/
theorem countOf_handleInitialize_le (now cid : String) (st : ServerState)
    (rid : RId) (hinv : SessionInv st) (p : String) :
    countOf st p ≤ countOf (handleInitialize now cid st rid).state p := by
  by_cases hc : cid ∈ st.connected_clients
  · rw [handleInitialize, if_pos hc]
    rcases hl : lookupSession st.client_sessions cid with _ | s
    · exact le_refl _
    · simp only [countOf_eq_countV, countV]
      rw [lookupSession_setSession]
      by_cases hp : p = cid
      · subst hp; simp [hl]
      · simp [hp]
  · rw [handleInitialize, if_neg hc, lookupSession_setSession_self]
    simp only [countOf_eq_countV, countV]
    rw [lookupSession_setSession]
    by_cases hp : p = cid
    · subst hp
      rcases hl : lookupSession st.client_sessions p with _ | s
      · simp
      · exact absurd (hinv p (by simp [hl])) hc
    · rw [if_neg hp, lookupSession_setSession, if_neg hp]

/-- Keys present after a dict assignment: the assigned key or an already
present key. -/
theorem isSome_of_setSession (m : Sessions) (cid c : String) (s : Session)
    (h : (lookupSession (setSession m cid s) c).isSome) :
    c = cid ∨ (lookupSession m c).isSome := by
  rw [lookupSession_setSession] at h
  by_cases hc : c = cid
  · exact Or.inl hc
  · right; simpa [hc] using h

/-- The reachability invariant survives the `initialize` branch. -/
theorem sessionInv_handleInitialize (now cid : String) (st : ServerState)
    (rid : RId) (hinv : SessionInv st) :
    SessionInv (handleInitialize now cid st rid).state := by
  by_cases hc : cid ∈ st.connected_clients
  · rw [handleInitialize, if_pos hc]
    rcases hl : lookupSession st.client_sessions cid with _ | s
    · exact hinv
    · intro c hsome
      rcases isSome_of_setSession _ _ _ _ hsome with hcid | hold
      · subst hcid; exact hc
      · exact hinv c hold
  · rw [handleInitialize, if_neg hc, lookupSession_setSession_self]
    intro c hsome
    rcases isSome_of_setSession _ _ _ _ hsome with hcid | hold
    · subst hcid; exact List.mem_append_right _ (List.mem_singleton_self c)
    · rcases isSome_of_setSession _ _ _ _ hold with hcid | hold2
      · subst hcid; exact List.mem_append_right _ (List.mem_singleton_self c)
      · exact List.mem_append_left _ (hinv c hold2)

/-- The reachability invariant survives `bumpCount`. -/
theorem sessionInv_bumpCount (st : ServerState) (cid : String)
    (hinv : SessionInv st) :
    SessionInv ⟨st.connected_clients, bumpCount st.client_sessions cid⟩ := by
  intro c hsome
  unfold bumpCount at hsome
  rcases hl : lookupSession st.client_sessions cid with _ | s
  · rw [hl] at hsome; exact hinv c hsome
  · rw [hl] at hsome
    rcases isSome_of_setSession _ _ _ _ hsome with hcid | hold
    · subst hcid; exact hinv c (by simp [hl])
    · exact hinv c hold

/-- The reachability invariant survives `trackCall`. -/
theorem sessionInv_trackCall (st : ServerState) (cid : String) (r : ToolRecord)
    (hinv : SessionInv st) :
    SessionInv ⟨st.connected_clients, trackCall st.client_sessions cid r⟩ := by
  intro c hsome
  unfold trackCall at hsome
  rcases hl : lookupSession st.client_sessions cid with _ | s
  · rw [hl] at hsome; exact hinv c hsome
  · rw [hl] at hsome
    rcases isSome_of_setSession _ _ _ _ hsome with hcid | hold
    · subst hcid; exact hinv c (by simp [hl])
    · exact hinv c hold

/-- One dispatcher step never decreases any peer's request counter. -/
theorem countOf_step_le (oracle : Downstream) (now cid : String)
    (st : ServerState) (req : MCPRequest) (hinv : SessionInv st) (p : String) :
    countOf st p ≤ countOf (handle_mcp_request oracle now cid st req).state p := by
  by_cases h1 : req.method = some "initialize"
  · rw [handle_mcp_request, if_pos h1]
    exact countOf_handleInitialize_le now cid st req.id hinv p
  · by_cases h2 : req.method = some "notifications/initialized"
    · rw [handle_mcp_request, if_neg h1, if_pos h2]
    · by_cases h3 : req.method = some "tools/list"
      · rw [handle_mcp_request, if_neg h1, if_neg h2, if_pos h3]
        exact countV_bumpCount_le st.client_sessions cid p
      · by_cases h4 : req.method = some "tools/call"
        · rw [handle_mcp_request, if_neg h1, if_neg h2, if_neg h3, if_pos h4]
          exact countV_trackCall_le st.client_sessions cid p _
        · rw [handle_mcp_request, if_neg h1, if_neg h2, if_neg h3, if_neg h4]

/-- The reachability invariant is preserved by every dispatcher step. -/
theorem sessionInv_step (oracle : Downstream) (now cid : String)
    (st : ServerState) (req : MCPRequest) (hinv : SessionInv st) :
    SessionInv (handle_mcp_request oracle now cid st req).state := by
  by_cases h1 : req.method = some "initialize"
  · rw [handle_mcp_request, if_pos h1]
    exact sessionInv_handleInitialize now cid st req.id hinv
  · by_cases h2 : req.method = some "notifications/initialized"
    · rw [handle_mcp_request, if_neg h1, if_pos h2]; exact hinv
    · by_cases h3 : req.method = some "tools/list"
      · rw [handle_mcp_request, if_neg h1, if_neg h2, if_pos h3]
        exact sessionInv_bumpCount st cid hinv
      · by_cases h4 : req.method = some "tools/call"
        · rw [handle_mcp_request, if_neg h1, if_neg h2, if_neg h3, if_pos h4]
          exact sessionInv_trackCall st cid _ hinv
        · rw [handle_mcp_request, if_neg h1, if_neg h2, if_neg h3, if_neg h4]
          exact hinv

/-- Claim C8: tools/list always succeeds and returns the full Tool
Registry contents verbatim; in particular it is idempotent: two
tools/list requests in the same session return identical tool
catalogs. -/
theorem C8_tools_list_verbatim_idempotent (oracle : Downstream)
    (now1 now2 cid1 cid2 : String) (st : ServerState) (rid1 rid2 : RId)
    (p1 p2 : CallParams) :
    (handle_mcp_request oracle now1 cid1 st ⟨some "tools/list", p1, rid1⟩).response
      = ⟨rid1, some (RpcResultVal.toolsList TOOLS), none⟩ ∧
    (handle_mcp_request oracle now2 cid2
        (handle_mcp_request oracle now1 cid1 st ⟨some "tools/list", p1, rid1⟩).state
        ⟨some "tools/list", p2, rid2⟩).response.result
      = (handle_mcp_request oracle now1 cid1 st
          ⟨some "tools/list", p1, rid1⟩).response.result := by
  exact ⟨rfl, rfl⟩

/-- Claim C9: a tools/call of add_number with number 42, when the
downstream business API responds with a JSON object with result 43,
returns a text containing the substring "42 + 1 = 43". -/
theorem C9_add_number_42 (oracle : Downstream)
    (h : oracle (DCall.post "/adder" [("number", PyVal.vint 42)]) =
         DownstreamResult.ok [("result", PyVal.vint 43)]) :
    (call_tool oracle "add_number" [("number", PyVal.vint 42)]).text =
      "Result: 42 + 1 = 43" ∧
    ∃ pre post,
      (call_tool oracle "add_number" [("number", PyVal.vint 42)]).text =
        pre ++ "42 + 1 = 43" ++ post := by
  have htext : (call_tool oracle "add_number" [("number", PyVal.vint 42)]).text
      = "Result: 42 + 1 = 43" := by
    simp [call_tool, argGet, h, dictGet, pyStr, pyRepr]
    decide
  refine ⟨htext, "Result: ", "", ?_⟩
  rw [htext]
  rfl

/-- Claim C2: a tools/call naming a tool outside the five registered ones
returns exactly the text "Unknown tool: name" and issues no downstream
HTTP call. -/
theorem C2_unknown_tool (oracle : Downstream) (now cid : String)
    (st : ServerState) (rid : RId) (name : String) (args : Args)
    (h : name ∉ toolNames) :
    (handle_mcp_request oracle now cid st
        ⟨some "tools/call", ⟨name, args⟩, rid⟩).response.result
      = some (RpcResultVal.content [⟨"text", "Unknown tool: " ++ name⟩]) ∧
    (handle_mcp_request oracle now cid st
        ⟨some "tools/call", ⟨name, args⟩, rid⟩).calls = [] := by
  simp only [toolNames, TOOLS, List.map_cons, List.map_nil, List.mem_cons,
    List.not_mem_nil, or_false, not_or] at h
  obtain ⟨h1, h2, h3, h4, h5⟩ := h
  constructor
  · simp [handle_mcp_request, handleToolsCall, call_tool, h1, h2, h3, h4, h5]
  · simp [handle_mcp_request, handleToolsCall, call_tool, h1, h2, h3, h4, h5]

/-- Claim C10: tools/list and tools/call from a peer with no tracked
session are handled normally (catalog returned, tool executed) and leave
the entire server state unchanged. -/
theorem C10_untracked_peer_no_mutation (oracle : Downstream) (now cid : String)
    (st : ServerState) (rid : RId) (name : String) (args : Args)
    (h : lookupSession st.client_sessions cid = none) :
    (handle_mcp_request oracle now cid st
        ⟨some "tools/list", ⟨name, args⟩, rid⟩).state = st ∧
    (handle_mcp_request oracle now cid st
        ⟨some "tools/list", ⟨name, args⟩, rid⟩).response
      = ⟨rid, some (RpcResultVal.toolsList TOOLS), none⟩ ∧
    (handle_mcp_request oracle now cid st
        ⟨some "tools/call", ⟨name, args⟩, rid⟩).state = st ∧
    (handle_mcp_request oracle now cid st
        ⟨some "tools/call", ⟨name, args⟩, rid⟩).response
      = ⟨rid, some (RpcResultVal.content
          [⟨"text", (call_tool oracle name args).text⟩]), none⟩ ∧
    (handle_mcp_request oracle now cid st
        ⟨some "tools/call", ⟨name, args⟩, rid⟩).calls
      = (call_tool oracle name args).calls := by
  refine ⟨?_, rfl, ?_, rfl, rfl⟩
  · simp [handle_mcp_request, handleToolsList, bumpCount, h]
  · simp [handle_mcp_request, handleToolsCall, trackCall, h]

/-- Claim C6: for a peer with a tracked session, tools/call increments
the session counter by one and appends exactly one invocation record at
the end of the history, and tools/list increments the counter by one. -/
theorem C6_tracked_session_updates (oracle : Downstream) (now cid : String)
    (st : ServerState) (rid : RId) (name : String) (args : Args) (s : Session)
    (h : lookupSession st.client_sessions cid = some s) :
    lookupSession (handle_mcp_request oracle now cid st
        ⟨some "tools/call", ⟨name, args⟩, rid⟩).state.client_sessions cid
      = some ⟨s.connected_at, s.requests_count + 1,
              s.tools_called ++ [⟨name, args, now⟩]⟩ ∧
    lookupSession (handle_mcp_request oracle now cid st
        ⟨some "tools/list", ⟨name, args⟩, rid⟩).state.client_sessions cid
      = some ⟨s.connected_at, s.requests_count + 1, s.tools_called⟩ := by
  constructor
  · simp [handle_mcp_request, handleToolsCall, trackCall, h,
      lookupSession_setSession_self]
  · simp [handle_mcp_request, handleToolsList, bumpCount, h,
      lookupSession_setSession_self]

/-- Claim C4: any well-formed request whose method is none of initialize,
notifications/initialized, tools/list, tools/call gets an RPC-level error
response with code -32603, message "Internal error", and a data field
carrying the causing detail (the stringified HTTPException naming the
unknown method); the state is untouched and the handler is total (no
crash). -/
theorem C4_unknown_method (oracle : Downstream) (now cid : String)
    (st : ServerState) (rid : RId) (m : String) (p : CallParams)
    (h : m ∉ ["initialize", "notifications/initialized",
              "tools/list", "tools/call"]) :
    (handle_mcp_request oracle now cid st ⟨some m, p, rid⟩).response.id = rid ∧
    (handle_mcp_request oracle now cid st ⟨some m, p, rid⟩).response.result
      = none ∧
    (handle_mcp_request oracle now cid st ⟨some m, p, rid⟩).response.error
      = some ⟨-32603, "Internal error",
          httpExceptionStr 400 ("Unknown method: " ++ m)⟩ ∧
    (∃ pre, (handle_mcp_request oracle now cid st ⟨some m, p, rid⟩).response.error
      = some ⟨-32603, "Internal error", pre ++ ("Unknown method: " ++ m)⟩) ∧
    (handle_mcp_request oracle now cid st ⟨some m, p, rid⟩).state = st := by
  simp only [List.mem_cons, List.not_mem_nil, or_false, not_or] at h
  obtain ⟨h1, h2, h3, h4⟩ := h
  refine ⟨?_, ?_, ?_, ⟨"400: ", ?_⟩, ?_⟩ <;>
    (simp [handle_mcp_request, errorResponse, optStrPy, httpExceptionStr,
      h1, h2, h3, h4]; try rfl)

/-- Claim C5: every inbound envelope whose method is not the
notifications/initialized notification gets exactly one response echoing
its id (the error branch included); the notifications/initialized
notification gets the bare acknowledgement with no id, no result, no
error, and leaves the state unchanged. -/
theorem C5_id_echo_and_notification (oracle : Downstream) (now cid : String)
    (st : ServerState) (req : MCPRequest) :
    (req.method ≠ some "notifications/initialized" →
      (handle_mcp_request oracle now cid st req).response.id = req.id) ∧
    (req.method = some "notifications/initialized" →
      (handle_mcp_request oracle now cid st req).response = ⟨none, none, none⟩ ∧
      (handle_mcp_request oracle now cid st req).state = st) := by
  constructor
  · intro hne
    by_cases h1 : req.method = some "initialize"
    · rw [handle_mcp_request, if_pos h1]
      unfold handleInitialize
      by_cases hc : cid ∈ st.connected_clients
      · rw [if_pos hc]
        cases lookupSession st.client_sessions cid <;> rfl
      · rw [if_neg hc]
        cases lookupSession (setSession st.client_sessions cid ⟨now, 0, []⟩) cid <;>
          rfl
    · by_cases h3 : req.method = some "tools/list"
      · rw [handle_mcp_request, if_neg h1, if_neg hne, if_pos h3]; rfl
      · by_cases h4 : req.method = some "tools/call"
        · rw [handle_mcp_request, if_neg h1, if_neg hne, if_neg h3, if_pos h4]; rfl
        · rw [handle_mcp_request, if_neg h1, if_neg hne, if_neg h3, if_neg h4]; rfl
  · intro heq
    rw [handle_mcp_request, if_neg (by rw [heq]; decide), if_pos heq]
    exact ⟨rfl, rfl⟩

/-- Claim C1: every tools/call request is answered with a JSON-RPC
success whose content is a single text block, never an RPC-level error;
and for a registered tool whose required arguments are present, a
downstream failure with stringified cause m yields exactly the text
"Error executing name: m". -/
theorem C1_tools_call_rpc_success (oracle : Downstream) (now cid : String)
    (st : ServerState) (rid : RId) (name : String) (args : Args) :
    (handle_mcp_request oracle now cid st
        ⟨some "tools/call", ⟨name, args⟩, rid⟩).response.error = none ∧
    (handle_mcp_request oracle now cid st
        ⟨some "tools/call", ⟨name, args⟩, rid⟩).response.result
      = some (RpcResultVal.content
          [⟨"text", (call_tool oracle name args).text⟩]) ∧
    (∀ m : String, name ∈ toolNames →
      (∀ c, oracle c = DownstreamResult.err m) →
      (∀ k, k ∈ requiredOf name → (argGet args k).isSome) →
      (call_tool oracle name args).text
        = "Error executing " ++ name ++ ": " ++ m) := by
  refine ⟨rfl, rfl, ?_⟩
  intro m hname horacle hreq
  simp only [toolNames, TOOLS, List.map_cons, List.map_nil, List.mem_cons,
    List.not_mem_nil, or_false] at hname
  rcases hname with h | h | h | h | h <;> subst h
  · have h1 := hreq "name" (by decide)
    have h2 := hreq "version" (by decide)
    rcases ha : argGet args "name" with _ | nv
    · rw [ha] at h1; simp at h1
    · rcases hb : argGet args "version" with _ | vv
      · rw [hb] at h2; simp at h2
      · simp [call_tool, ha, hb, horacle]
  · have h1 := hreq "agent_id" (by decide)
    have h2 := hreq "status" (by decide)
    rcases ha : argGet args "agent_id" with _ | av
    · rw [ha] at h1; simp at h1
    · rcases hb : argGet args "status" with _ | sv
      · rw [hb] at h2; simp at h2
      · simp [call_tool, ha, hb, horacle]
  · have h1 := hreq "agent_id" (by decide)
    rcases ha : argGet args "agent_id" with _ | av
    · rw [ha] at h1; simp at h1
    · simp [call_tool, ha, horacle]
  · have h1 := hreq "number" (by decide)
    rcases ha : argGet args "number" with _ | nv
    · rw [ha] at h1; simp at h1
    · simp [call_tool, ha, horacle]
  · simp [call_tool, horacle]

/-- Claim C3: a tools/call naming a registered tool but missing a
required field of its schema fails before any downstream HTTP call is
issued (ok = false, empty call list, total function so no crash), with a
text naming the offending missing key. -/
theorem C3_missing_required_argument (oracle : Downstream) (name : String)
    (args : Args) (k : String) (hname : name ∈ toolNames)
    (hk : k ∈ requiredOf name) (hmiss : argGet args k = none) :
    (call_tool oracle name args).ok = false ∧
    (call_tool oracle name args).calls = [] ∧
    ∃ k2, k2 ∈ requiredOf name ∧ argGet args k2 = none ∧
      (call_tool oracle name args).text
        = "Error executing " ++ name ++ ": " ++ keyErrorStr k2 := by
  simp only [toolNames, TOOLS, List.map_cons, List.map_nil, List.mem_cons,
    List.not_mem_nil, or_false] at hname
  rcases hname with h | h | h | h | h <;> subst h
  · have hk2 : k = "name" ∨ k = "version" := by
      have hreq : requiredOf "register_agent" = ["name", "version"] := rfl
      rw [hreq] at hk
      simpa using hk
    rcases ha : argGet args "name" with _ | nv
    · exact ⟨by simp [call_tool, ha], by simp [call_tool, ha],
        "name", by decide, ha, by simp [call_tool, ha]⟩
    · have hkv : k = "version" := by
        rcases hk2 with rfl | rfl
        · rw [ha] at hmiss; cases hmiss
        · rfl
      subst hkv
      exact ⟨by simp [call_tool, ha, hmiss], by simp [call_tool, ha, hmiss],
        "version", by decide, hmiss, by simp [call_tool, ha, hmiss]⟩
  · have hk2 : k = "agent_id" ∨ k = "status" := by
      have hreq : requiredOf "report_status" = ["agent_id", "status"] := rfl
      rw [hreq] at hk
      simpa using hk
    rcases ha : argGet args "agent_id" with _ | av
    · exact ⟨by simp [call_tool, ha], by simp [call_tool, ha],
        "agent_id", by decide, ha, by simp [call_tool, ha]⟩
    · have hkv : k = "status" := by
        rcases hk2 with rfl | rfl
        · rw [ha] at hmiss; cases hmiss
        · rfl
      subst hkv
      exact ⟨by simp [call_tool, ha, hmiss], by simp [call_tool, ha, hmiss],
        "status", by decide, hmiss, by simp [call_tool, ha, hmiss]⟩
  · have hkv : k = "agent_id" := by
      have hreq : requiredOf "get_tasks" = ["agent_id"] := rfl
      rw [hreq] at hk
      simpa using hk
    subst hkv
    exact ⟨by simp [call_tool, hmiss], by simp [call_tool, hmiss],
      "agent_id", by decide, hmiss, by simp [call_tool, hmiss]⟩
  · have hkv : k = "number" := by
      have hreq : requiredOf "add_number" = ["number"] := rfl
      rw [hreq] at hk
      simpa using hk
    subst hkv
    exact ⟨by simp [call_tool, hmiss], by simp [call_tool, hmiss],
      "number", by decide, hmiss, by simp [call_tool, hmiss]⟩
  · have hreq : requiredOf "get_joke" = [] := rfl
    rw [hreq] at hk
    cases hk

/-- Claim C7: along any sequence of handled requests from any mix of
peers, starting in a state where every tracked session belongs to a
connected client, no peer's session request counter ever decreases. -/
theorem C7_counter_monotone (oracle : Downstream) (st : ServerState)
    (l : List Inbound) (p : String) (hinv : SessionInv st) :
    countOf st p ≤ countOf (runRequests oracle st l) p := by
  induction l generalizing st with
  | nil => exact le_refl _
  | cons i t ih =>
    calc countOf st p
        ≤ countOf (handle_mcp_request oracle i.now i.client_id st i.req).state p :=
          countOf_step_le oracle i.now i.client_id st i.req hinv p
      _ ≤ countOf (runRequests oracle
            (handle_mcp_request oracle i.now i.client_id st i.req).state t) p :=
          ih _ (sessionInv_step oracle i.now i.client_id st i.req hinv)

/-- A downstream stub failing every call with cause "boom". -/
def oracleBoom : Downstream := fun _ => DownstreamResult.err "boom"

/-- A downstream stub answering every call with a JSON object whose
result field is 43. -/
def oracle43 : Downstream := fun _ =>
  DownstreamResult.ok [("result", PyVal.vint 43)]

/-- The empty initial server state. -/
def st0 : ServerState := ⟨[], []⟩

/-- A state tracking one connected peer with a session of 3 requests. -/
def stOne : ServerState :=
  ⟨["9.9.9.9:1"], [("9.9.9.9:1", ⟨"t0", 3, []⟩)]⟩

/-- Concrete instance of C1: get_joke under an all-failing downstream. -/
theorem C1_tools_call_rpc_success_witness :
    (handle_mcp_request oracleBoom "t1" "9.9.9.9:1" st0
        ⟨some "tools/call", ⟨"get_joke", []⟩, some (PyVal.vint 7)⟩).response.error
      = none ∧
    (call_tool oracleBoom "get_joke" []).text
      = "Error executing get_joke: boom" := by
  have h := C1_tools_call_rpc_success oracleBoom "t1" "9.9.9.9:1" st0
    (some (PyVal.vint 7)) "get_joke" []
  refine ⟨h.1, ?_⟩
  have ht := h.2.2 "boom" (by decide) (fun c => rfl)
    (fun k hk => absurd hk (List.not_mem_nil k))
  exact ht.trans (by rfl)

/-- Concrete instance of C2: the tool name "bogus". -/
theorem C2_unknown_tool_witness :
    (handle_mcp_request oracleBoom "t1" "c1" st0
        ⟨some "tools/call", ⟨"bogus", []⟩, none⟩).response.result
      = some (RpcResultVal.content [⟨"text", "Unknown tool: bogus"⟩]) ∧
    (handle_mcp_request oracleBoom "t1" "c1" st0
        ⟨some "tools/call", ⟨"bogus", []⟩, none⟩).calls = [] := by
  have h := C2_unknown_tool oracleBoom "t1" "c1" st0 none "bogus" [] (by decide)
  exact ⟨h.1.trans (by rfl), h.2⟩

/-- Concrete instance of C3: register_agent with an empty argument
mapping. -/
theorem C3_missing_required_argument_witness :
    (call_tool oracleBoom "register_agent" []).ok = false ∧
    (call_tool oracleBoom "register_agent" []).calls = [] ∧
    ∃ k2, k2 ∈ requiredOf "register_agent" ∧ argGet [] k2 = none ∧
      (call_tool oracleBoom "register_agent" []).text
        = "Error executing " ++ "register_agent" ++ ": " ++ keyErrorStr k2 :=
  C3_missing_required_argument oracleBoom "register_agent" [] "name"
    (by decide) (by decide) rfl

/-- Concrete instance of C4: the unroutable method "ping". -/
theorem C4_unknown_method_witness :
    (handle_mcp_request oracleBoom "t1" "c1" st0
        ⟨some "ping", ⟨"", []⟩, some (PyVal.vint 3)⟩).response.error
      = some ⟨-32603, "Internal error",
          httpExceptionStr 400 ("Unknown method: " ++ "ping")⟩ ∧
    (handle_mcp_request oracleBoom "t1" "c1" st0
        ⟨some "ping", ⟨"", []⟩, some (PyVal.vint 3)⟩).response.id
      = some (PyVal.vint 3) := by
  have h := C4_unknown_method oracleBoom "t1" "c1" st0 (some (PyVal.vint 3))
    "ping" ⟨"", []⟩ (by decide)
  exact ⟨h.2.2.1, h.1⟩

/-- Concrete instance of C5: a tools/list request with id 5 and the
notifications/initialized notification. -/
theorem C5_id_echo_and_notification_witness :
    (handle_mcp_request oracleBoom "t1" "c1" st0
        ⟨some "tools/list", ⟨"", []⟩, some (PyVal.vint 5)⟩).response.id
      = some (PyVal.vint 5) ∧
    (handle_mcp_request oracleBoom "t1" "c1" st0
        ⟨some "notifications/initialized", ⟨"", []⟩, none⟩).response
      = ⟨none, none, none⟩ := by
  constructor
  · exact (C5_id_echo_and_notification oracleBoom "t1" "c1" st0
      ⟨some "tools/list", ⟨"", []⟩, some (PyVal.vint 5)⟩).1 (by decide)
  · exact ((C5_id_echo_and_notification oracleBoom "t1" "c1" st0
      ⟨some "notifications/initialized", ⟨"", []⟩, none⟩).2 rfl).1

/-- Concrete instance of C6: a tracked peer with 3 prior requests calling
get_joke. -/
theorem C6_tracked_session_updates_witness :
    lookupSession (handle_mcp_request oracleBoom "t1" "9.9.9.9:1" stOne
        ⟨some "tools/call", ⟨"get_joke", []⟩, none⟩).state.client_sessions
        "9.9.9.9:1"
      = some ⟨"t0", 4, [⟨"get_joke", [], "t1"⟩]⟩ ∧
    lookupSession (handle_mcp_request oracleBoom "t1" "9.9.9.9:1" stOne
        ⟨some "tools/list", ⟨"get_joke", []⟩, none⟩).state.client_sessions
        "9.9.9.9:1"
      = some ⟨"t0", 4, []⟩ := by
  have h := C6_tracked_session_updates oracleBoom "t1" "9.9.9.9:1" stOne none
    "get_joke" [] ⟨"t0", 3, []⟩ rfl
  exact ⟨h.1, h.2⟩

/-- Concrete instance of C7: one initialize request from the empty
state. -/
theorem C7_counter_monotone_witness :
    SessionInv st0 ∧
    countOf st0 "c1" ≤ countOf (runRequests oracleBoom st0
      [⟨"c1", "t1", ⟨some "initialize", ⟨"", []⟩, some (PyVal.vint 1)⟩⟩]) "c1" := by
  have hinv : SessionInv st0 := by
    intro c hc
    simp [st0, lookupSession] at hc
  exact ⟨hinv, C7_counter_monotone oracleBoom st0 _ "c1" hinv⟩

/-- Concrete instance of C9: a downstream stub answering 43. -/
theorem C9_add_number_42_witness :
    (call_tool oracle43 "add_number" [("number", PyVal.vint 42)]).text
      = "Result: 42 + 1 = 43" :=
  (C9_add_number_42 oracle43 rfl).1

/-- Concrete instance of C10: an untracked peer in the empty state. -/
theorem C10_untracked_peer_no_mutation_witness :
    (handle_mcp_request oracleBoom "t1" "c1" st0
        ⟨some "tools/list", ⟨"get_joke", []⟩, none⟩).state = st0 ∧
    (handle_mcp_request oracleBoom "t1" "c1" st0
        ⟨some "tools/call", ⟨"get_joke", []⟩, none⟩).state = st0 := by
  have h := C10_untracked_peer_no_mutation oracleBoom "t1" "c1" st0 none
    "get_joke" [] rfl
  exact ⟨h.1, h.2.2.1⟩
